import Mathlib

/-!
Shallow embedding of the `pages` crate (`src/src/lib.rs`): a wrapper over
kernel memory pages (`Pages<R, W, E>`) with type-state permission markers,
and a `Vec`-like container (`PagedVec<T>`) built on top of it.

`usize` values are modelled as `Nat`, with an explicit `% 2 ^ 64` at the
arithmetic sites where wrapping matters for the claims under study
(release-build wrapping semantics).  Rust panics are modelled as
`Option.none` or as explicit panic predicates.  The operating system is a
collaborator: where its decision matters it is an explicit parameter, and
a refusal path that panics yields no state.
-/

namespace PagesCrate

/-- OS page granularity, src/src/lib.rs line 186: `const PAGE_SIZE: usize = 0x1000`. -/
def PAGE_SIZE : Nat := 0x1000

/-- Modulus of `usize` arithmetic on the 64-bit targets the crate is used on. -/
def USIZE_MOD : Nat := 2 ^ 64

/-- The `mmap` failure sentinel, compared as `ptr as usize == usize::MAX` (line 427). -/
def MAP_FAILED : Nat := USIZE_MOD - 1

/-- `next_page_boundary` (lines 183-185): `((size + PAGE_SIZE - 1)/PAGE_SIZE)*PAGE_SIZE`
in `usize` arithmetic.  For `size < 2 ^ 64` the two wrapping steps
`size + PAGE_SIZE` then `- 1` compose to `(size + (PAGE_SIZE - 1)) % 2 ^ 64`;
the final division and multiplication cannot overflow. -/
def next_page_boundary (size : Nat) : Nat :=
  (size + (PAGE_SIZE - 1)) % USIZE_MOD / PAGE_SIZE * PAGE_SIZE

/-- A permission-marker triple `<R, W, E>`: the `allow_read` / `allow_write` /
`allow_exec` booleans of the six zero-sized marker types (lines 209-303). -/
structure Prot where
  read : Bool
  write : Bool
  exec : Bool
deriving DecidableEq

/-- Unix protection bits `R::bitmask() | W::bitmask() | E::bitmask()` with
`0x1` for read, `0x2` for write, `0x4` for exec (lines 235-303 and 341-345).
The three contributions occupy disjoint bits, so the bit-or is a sum. -/
def bitmask (p : Prot) : Nat :=
  (cond p.read 0x1 0) + (cond p.write 0x2 0) + (cond p.exec 0x4 0)

/-- winapi constant used by the Windows binding. -/
def PAGE_NOACCESS : Nat := 0x01

/-- winapi constant used by the Windows binding. -/
def PAGE_READONLY : Nat := 0x02

/-- winapi constant used by the Windows binding. -/
def PAGE_READWRITE : Nat := 0x04

/-- winapi constant used by the Windows binding. -/
def PAGE_EXECUTE : Nat := 0x10

/-- winapi constant used by the Windows binding. -/
def PAGE_EXECUTE_READ : Nat := 0x20

/-- winapi constant used by the Windows binding. -/
def PAGE_EXECUTE_READWRITE : Nat := 0x40

/-- Windows `flProtect` lookup (lines 346-364).  The mask is at most `7`, so the
source's panicking `0x8..=0xFF` arm is unreachable; it is mapped here to `0`,
a value distinct from every real protection constant. -/
def flProtect (p : Prot) : Nat :=
  match bitmask p with
  | 0 => PAGE_NOACCESS
  | 1 => PAGE_READONLY
  | 2 => PAGE_READWRITE
  | 3 => PAGE_READWRITE
  | 4 => PAGE_EXECUTE
  | 5 => PAGE_EXECUTE_READ
  | 6 => PAGE_EXECUTE_READWRITE
  | 7 => PAGE_EXECUTE_READWRITE
  | _ => 0

/-- The two `target_family` bindings the crate compiles for. -/
inductive Family where
  | unix : Family
  | windows : Family
deriving DecidableEq

/-- Effective OS-level protection implied by a marker triple: the value whose
equality `into_prot` (lines 463-484) compares before deciding whether to issue
an OS protection-change call. -/
def effProt : Family → Prot → Nat
  | Family.unix, p => bitmask p
  | Family.windows, p => flProtect p

/-- A `Pages<R, W, E>` value: base address, byte length (already page-rounded)
and the bytes stored in the mapping (lines 304-311).  The marker triple is
type-level state in the source and is passed separately where it matters. -/
structure PagesRegion where
  addr : Nat
  len : Nat
  bytes : List Nat
deriving DecidableEq

/-- The `mmap` collaborator (lines 196-207): `osResult` is the kernel's decision
(`some a`: grant at base address `a`; `none`: refuse).  A zero-length request is
always refused (`EINVAL`).  Failure returns `MAP_FAILED`. -/
def mmap_model (osResult : Option Nat) (len _prot : Nat) : Nat :=
  if len = 0 then MAP_FAILED
  else
    match osResult with
    | none => MAP_FAILED
    | some a => a

/-- `Pages::new_native` on unix (lines 411-438): `assert_ne!(length, 0)` panics on
a zero-length request; otherwise the length is rounded with `next_page_boundary`
and `mmap` is called with the triple's protection bits; a `MAP_FAILED` result is
a panic carrying the `errno` diagnostic.  `none` models either panic.  A fresh
anonymous private mapping is zero-filled. -/
def new_native (length : Nat) (p : Prot) (osResult : Option Nat) : Option PagesRegion :=
  if length = 0 then none
  else
    let len := next_page_boundary length
    let ptr := mmap_model osResult len (bitmask p)
    if ptr = MAP_FAILED then none
    else some ⟨ptr, len, List.replicate len 0⟩

/-- Failure handling of `Pages::set_prot` on unix (lines 439-446): the source
panics exactly when `mprotect(..) != -1 && erno() != 0`.  `ret` is the
`mprotect` return value (`0` on success, `-1` on failure) and `errno` the
thread's current `errno` value at that moment. -/
def set_prot_panics (ret errno : Int) : Bool :=
  (!(ret == -1)) && (!(errno == 0))

/-- Failure handling of `impl Drop for Pages` on unix (lines 705-716):
panics exactly when `munmap` returned `-1`. -/
def drop_panics (munmapRet : Int) : Bool :=
  munmapRet == -1

/-- One OS protection-change request `mprotect(addr, len, prot)` /
`VirtualProtect` (lines 439-462). -/
inductive OsCall where
  | protect : Nat → Nat → Nat → OsCall
deriving DecidableEq

/-- `Pages::into_prot` (lines 463-484): builds the retyped region over the same
`ptr` and `len` (the old handle is `mem::forget`-ten, so no release happens),
returns it with no OS call if the effective protections coincide, and otherwise
calls `set_prot` once.  The second component is the list of OS
protection-change calls issued. -/
def into_prot (pf : Family) (src tgt : Prot) (pg : PagesRegion) :
    PagesRegion × List OsCall :=
  let res : PagesRegion := ⟨pg.addr, pg.len, pg.bytes⟩
  if effProt pf src = effProt pf tgt then (res, [])
  else (res, [OsCall.protect res.addr res.len (effProt pf tgt)])

/-- `Pages::allow_read` (lines 523-527): transition to `<AllowRead, W, E>`. -/
def allow_read (pf : Family) (p : Prot) (pg : PagesRegion) : PagesRegion × List OsCall :=
  into_prot pf p ⟨true, p.write, p.exec⟩ pg

/-- `Pages::deny_read` (lines 528-532): transition to `<DenyRead, W, E>`. -/
def deny_read (pf : Family) (p : Prot) (pg : PagesRegion) : PagesRegion × List OsCall :=
  into_prot pf p ⟨false, p.write, p.exec⟩ pg

/-- `Pages::allow_write` (lines 533-577): transition to `<R, AllowWrite, E>`. -/
def allow_write (pf : Family) (p : Prot) (pg : PagesRegion) : PagesRegion × List OsCall :=
  into_prot pf p ⟨p.read, true, p.exec⟩ pg

/-- `Pages::deny_write` (lines 578-582): transition to `<R, DenyWrite, E>`. -/
def deny_write (pf : Family) (p : Prot) (pg : PagesRegion) : PagesRegion × List OsCall :=
  into_prot pf p ⟨p.read, false, p.exec⟩ pg

/-- `Pages::allow_write_no_exec` (lines 583-588): transition to
`<R, AllowWrite, DenyExec>`. -/
def allow_write_no_exec (pf : Family) (p : Prot) (pg : PagesRegion) : PagesRegion × List OsCall :=
  into_prot pf p ⟨p.read, true, false⟩ pg

/-- `Pages::allow_exec` (lines 589-597): transition to `<R, W, AllowExec>`. -/
def allow_exec (pf : Family) (p : Prot) (pg : PagesRegion) : PagesRegion × List OsCall :=
  into_prot pf p ⟨p.read, p.write, true⟩ pg

/-- `Pages::set_protected_exec` (lines 598-604): transition to
`<R, DenyWrite, AllowExec>`. -/
def set_protected_exec (pf : Family) (p : Prot) (pg : PagesRegion) : PagesRegion × List OsCall :=
  into_prot pf p ⟨p.read, false, true⟩ pg

/-- `Pages::deny_exec` (lines 605-609): transition to `<R, W, DenyExec>`. -/
def deny_exec (pf : Family) (p : Prot) (pg : PagesRegion) : PagesRegion × List OsCall :=
  into_prot pf p ⟨p.read, p.write, false⟩ pg

/-- Byte length of the region produced by `Pages::new` as a function of the
requested length (lines 388-438), with the OS assumed to grant every
well-formed request: the zero-length assert panics, and a rounded length of
`0` (possible only through `usize` wrap-around) makes `mmap` fail, which also
panics.  Used by the `PagedVec` model, whose backing `Pages` come from here. -/
def pagesNewLen (length : Nat) : Option Nat :=
  if length = 0 then none
  else if next_page_boundary length = 0 then none
  else some (next_page_boundary length)

/-- Size-level view of a `PagedVec<T>` (lines 37-41): the byte length of the
backing `Pages<AllowRead, AllowWrite, DenyExec>` region and the logical element
count `len`.  The element type enters only through `sizeT = size_of::<T>()`,
which the operations take as an explicit parameter. -/
structure PVec where
  regionLen : Nat
  len : Nat
deriving DecidableEq

namespace PVec

/-- `PagedVec::new` (lines 51-55): `bytes_min = (capacity * size_of::<T>()).max(0x1000)`
with a plain, unchecked `usize` product (wrapping `% 2 ^ 64` in release builds),
then `Pages::new(bytes_min)`; `len = 0`. -/
def new (sizeT capacity : Nat) : Option PVec :=
  (pagesNewLen (Nat.max (capacity * sizeT % USIZE_MOD) 0x1000)).map fun L => ⟨L, 0⟩

/-- `PagedVec::capacity` (lines 138-140): `self.data.len() / size_of::<T>()`. -/
def capacity (sizeT : Nat) (v : PVec) : Nat :=
  v.regionLen / sizeT

/-- `PagedVec::push_within_capacity` (lines 57-69) at the size level: the guard is
`self.len * size_of::<T>() < self.data.len()`; on success `len` is incremented
(`slice[self.len] = t` stores the value), on failure nothing changes and the
value travels back in the `Err`.  `none` is the `Err(t)` branch.  The product
`len * sizeT` stays far below `2 ^ 64` in every state considered here, so no
wrap is modelled. -/
def push_within_capacity (sizeT : Nat) (v : PVec) : Option PVec :=
  if v.len * sizeT < v.regionLen then some ⟨v.regionLen, v.len + 1⟩ else none

/-- `PagedVec::get_next_cap` (lines 70-72): `(cap + cap/2).max(0x1000)`. -/
def get_next_cap (cap : Nat) : Nat :=
  Nat.max (cap + cap / 2) 0x1000

/-- `PagedVec::resize` (lines 73-79): `bytes_cap = next_cap * size_of::<T>()` is the
same unchecked `usize` product as in `new`; a fresh region of that size is
allocated (panicking inside `Pages::new` if `bytes_cap` is zero), then
`cpy_len = len * size_of::<T>()` bytes are copied with `split_at_mut(cpy_len)`
on both regions, each of which panics if `cpy_len` exceeds the respective
region length.  The old region is released.  `none` models any of the panics. -/
def resize (sizeT : Nat) (v : PVec) (next_cap : Nat) : Option PVec :=
  match pagesNewLen (next_cap * sizeT % USIZE_MOD) with
  | none => none
  | some L =>
    if v.len * sizeT ≤ L ∧ v.len * sizeT ≤ v.regionLen then some ⟨L, v.len⟩ else none

/-- `PagedVec::push` (lines 127-135): try `push_within_capacity`; on failure,
`resize(get_next_cap(capacity))` and retry; a second failure is the
`PagedVec expanded, but still had not enough space` panic (`none`). -/
def push (sizeT : Nat) (v : PVec) : Option PVec :=
  match push_within_capacity sizeT v with
  | some v' => some v'
  | none => (resize sizeT v (get_next_cap (capacity sizeT v))).bind fun v2 =>
      push_within_capacity sizeT v2

/-- `PagedVec::reserve` (lines 83-88): no-op when `len + additional < capacity`,
otherwise `resize(get_next_cap(len + additional))`. -/
def reserve (sizeT : Nat) (v : PVec) (additional : Nat) : Option PVec :=
  if v.len + additional < capacity sizeT v then some v
  else resize sizeT v (get_next_cap (v.len + additional))

/-- `PagedVec::reserve_exact` (lines 98-103): no-op when
`len + additional < capacity`, otherwise `resize(len + additional)`. -/
def reserve_exact (sizeT : Nat) (v : PVec) (additional : Nat) : Option PVec :=
  if v.len + additional < capacity sizeT v then some v
  else resize sizeT v (v.len + additional)

/-- Iterated `push_within_capacity`, failing if any push fails: the loop of the
crate's own `test_page_vec` test (lines 832-839). -/
def iterPWC (sizeT : Nat) : Nat → PVec → Option PVec
  | 0, v => some v
  | n + 1, v => (push_within_capacity sizeT v).bind (iterPWC sizeT n)

end PVec

/-- `PagedVec::pop` (lines 142-151): `last_index = self.len` (not `len - 1`); the
swap target `self[last_index]` goes through the `Deref` slice, whose length is
`self.len`, so the access is bounds-checked against `len` and the check fails in
every state; `none` models the panic.  The `self.len -= 1` line is never
reached.  Were the index in bounds, the swap would hand back the indexed
element, leave non-constructed contents behind, and the length decrement would
shrink the live prefix by one. -/
def pop {α : Type} (data : List α) : Option (α × List α) :=
  let last_index := data.length
  match data[last_index]? with
  | some x => some (x, data.take (data.length - 1))
  | none => none

/-- `PagedVec::remove` (lines 109-124): `ret = ptr::read(ptr.add(index))` reads the
element at `index`; `ptr::copy(ptr.add(1), ptr, self.len - index - 1)` shifts the
following elements left one slot; `len -= 1`.  `data` is the live prefix
(`length = len`).  For `index < len` the result prefix is `take index ++ drop
(index + 1)`; the stale bit-copy left in the vacated last slot lies beyond the
new `len` and is never torn down.  For `index ≥ len` the unsigned copy count
`self.len - index - 1` underflows, which panics before any write (and the
out-of-prefix `ptr::read` yields no live element); both collapse to `none`. -/
def remove {α : Type} (data : List α) (index : Nat) : Option (α × List α) :=
  match data[index]? with
  | some x => some (x, data.take index ++ data.drop (index + 1))
  | none => none

/-- Contents of one element-sized slot of the backing region: either a live,
constructed `T` value or non-constructed bytes (fresh from `mmap`, or vacated
by a swap). -/
inductive Slot (α : Type) where
  | uninit : Slot α
  | live : α → Slot α
deriving DecidableEq

/-- Element-level view of a `PagedVec<T>` that additionally logs every
element-teardown, i.e. every run of `T`'s drop glue on a slot.  `slots` is the
backing region reinterpreted as `regionLen / sizeT` slots of type `T`; `len`
the logical length; `dropped` the teardown log, each entry recording
`(slot index, logical length at that moment, contents torn down)`; `pushes`
counts successful pushes. -/
structure LVec (α : Type) where
  sizeT : Nat
  regionLen : Nat
  slots : List (Slot α)
  len : Nat
  dropped : List (Nat × Nat × Slot α)
  pushes : Nat
deriving DecidableEq

namespace LVec

/-- `PagedVec::new` (lines 51-55) at the element level: a fresh zero-filled
anonymous mapping holds no constructed `T` values, so every slot starts
non-constructed. -/
def new (α : Type) (sizeT c : Nat) : Option (LVec α) :=
  (pagesNewLen (Nat.max (c * sizeT % USIZE_MOD) 0x1000)).map fun L =>
    ⟨sizeT, L, List.replicate (L / sizeT) Slot.uninit, 0, [], 0⟩

/-- `PagedVec::push_within_capacity` (lines 57-69) at the element level.
`slice[self.len] = t` is a Rust place assignment: it first runs the drop glue on
the slot's current contents (logging a teardown of slot `len` while the logical
length is still `len`) and only then moves `t` in.  The flag is `Ok`/`Err`. -/
def push_within_capacity {α : Type} (v : LVec α) (t : α) : LVec α × Bool :=
  if v.len * v.sizeT < v.regionLen then
    (⟨v.sizeT, v.regionLen,
      v.slots.set v.len (Slot.live t),
      v.len + 1,
      v.dropped ++ [(v.len, v.len, v.slots.getD v.len Slot.uninit)],
      v.pushes + 1⟩, true)
  else (v, false)

/-- `PagedVec::drop_all` (lines 157-165), the teardown loop run by `clear` and by
the `Drop` impl (lines 167-171): for each `i < len` in index order, an
uninitialized `tmp` is swapped with `self[i]` and dropped at the end of the
iteration, tearing down the old contents of slot `i` and leaving the slot
non-constructed. -/
def drop_all {α : Type} (v : LVec α) : LVec α :=
  (List.range v.len).foldl
    (fun w i =>
      ⟨w.sizeT, w.regionLen, w.slots.set i Slot.uninit, w.len,
        w.dropped ++ [(i, w.len, w.slots.getD i Slot.uninit)], w.pushes⟩)
    v

/-- `PagedVec::clear` (lines 152-156): `drop_all`, then `len = 0`. -/
def clear {α : Type} (v : LVec α) : LVec α :=
  let w := drop_all v
  ⟨w.sizeT, w.regionLen, w.slots, 0, w.dropped, w.pushes⟩

end LVec

set_option maxRecDepth 100000

/-- Arithmetic of `next_page_boundary`: whenever the rounded length is nonzero
(i.e. the `usize` addition did not wrap), it is at least the request and a
multiple of the page size. -/
theorem next_page_boundary_ge (L : Nat) (husize : L < USIZE_MOD)
    (hne : next_page_boundary L ≠ 0) :
    L ≤ next_page_boundary L ∧ PAGE_SIZE ∣ next_page_boundary L := by
  have h64 : USIZE_MOD = 18446744073709551616 := by norm_num [USIZE_MOD]
  simp only [next_page_boundary, PAGE_SIZE, h64] at hne husize ⊢
  constructor
  · omega
  · exact dvd_mul_left _ _

/-- Frame property of `Pages::into_prot`: the returned region keeps the address,
length and bytes of the input, and the number of OS protection-change calls is
`0` when the effective protections of source and target coincide and `1`
otherwise. -/
theorem into_prot_frame (pf : Family) (src tgt : Prot) (pg : PagesRegion) :
    (into_prot pf src tgt pg).1 = pg ∧
    (into_prot pf src tgt pg).2.length =
      (if effProt pf src = effProt pf tgt then 0 else 1) := by
  unfold into_prot
  split <;> simp_all

/-- Claim C7: for every length `L > 0` (a `usize`, so `L < 2 ^ 64`) and every
permission-marker triple, if constructing `Pages` succeeds then the region
length is at least `L` and a multiple of the OS page size `0x1000`; and
constructing with `L = 0` always fails (the zero-length assert). -/
theorem new_native_rounds_up (L : Nat) (p : Prot) (os : Option Nat) (pg : PagesRegion)
    (hpos : 0 < L) (husize : L < USIZE_MOD)
    (h : new_native L p os = some pg) :
    L ≤ pg.len ∧ PAGE_SIZE ∣ pg.len ∧ new_native 0 p os = none := by
  have hL0 : L ≠ 0 := by omega
  have hnone : new_native 0 p os = none := by simp [new_native]
  have key : pg.len = next_page_boundary L ∧ next_page_boundary L ≠ 0 := by
    by_cases hz : next_page_boundary L = 0
    · exfalso
      simp [new_native, mmap_model, hL0, hz] at h
    · rcases os with _ | a
      · exfalso
        simp [new_native, mmap_model, hL0, hz] at h
      · by_cases hf : a = MAP_FAILED
        · exfalso
          simp [new_native, mmap_model, hL0, hz, hf] at h
        · simp [new_native, mmap_model, hL0, hz, hf] at h
          refine ⟨?_, hz⟩
          have h2 := congrArg PagesRegion.len h
          simpa using h2.symm
  obtain ⟨hlen, hz⟩ := key
  obtain ⟨hge, hdvd⟩ := next_page_boundary_ge L husize hz
  rw [hlen]
  exact ⟨hge, hdvd, hnone⟩

/-- Witness for C7 at `L = 1` with the read-write triple and a granting OS. -/
theorem new_native_rounds_up_witness :
    0 < 1 ∧ 1 < USIZE_MOD ∧
    (1 ≤ (4096 : Nat) ∧ PAGE_SIZE ∣ (4096 : Nat) ∧
      new_native 0 ⟨true, true, false⟩ (some 0) = none) :=
  ⟨Nat.one_pos, by decide,
    new_native_rounds_up 1 ⟨true, true, false⟩ (some 0)
      ⟨0, 4096, List.replicate 4096 0⟩ Nat.one_pos (by decide) rfl⟩

/-- Claim C8: every one of the eight permission transitions preserves the
address, length and stored bytes of the region, issues zero OS
protection-change calls when the effective OS-level protection of the target
triple equals the source's, and exactly one call when it differs — on both
platform families. -/
theorem transitions_zero_or_one_call (pf : Family) (p : Prot) (pg : PagesRegion) :
    ((allow_read pf p pg).1 = pg ∧ (allow_read pf p pg).2.length =
        (if effProt pf p = effProt pf ⟨true, p.write, p.exec⟩ then 0 else 1)) ∧
    ((deny_read pf p pg).1 = pg ∧ (deny_read pf p pg).2.length =
        (if effProt pf p = effProt pf ⟨false, p.write, p.exec⟩ then 0 else 1)) ∧
    ((allow_write pf p pg).1 = pg ∧ (allow_write pf p pg).2.length =
        (if effProt pf p = effProt pf ⟨p.read, true, p.exec⟩ then 0 else 1)) ∧
    ((deny_write pf p pg).1 = pg ∧ (deny_write pf p pg).2.length =
        (if effProt pf p = effProt pf ⟨p.read, false, p.exec⟩ then 0 else 1)) ∧
    ((allow_write_no_exec pf p pg).1 = pg ∧ (allow_write_no_exec pf p pg).2.length =
        (if effProt pf p = effProt pf ⟨p.read, true, false⟩ then 0 else 1)) ∧
    ((allow_exec pf p pg).1 = pg ∧ (allow_exec pf p pg).2.length =
        (if effProt pf p = effProt pf ⟨p.read, p.write, true⟩ then 0 else 1)) ∧
    ((set_protected_exec pf p pg).1 = pg ∧ (set_protected_exec pf p pg).2.length =
        (if effProt pf p = effProt pf ⟨p.read, false, true⟩ then 0 else 1)) ∧
    ((deny_exec pf p pg).1 = pg ∧ (deny_exec pf p pg).2.length =
        (if effProt pf p = effProt pf ⟨p.read, p.write, false⟩ then 0 else 1)) :=
  ⟨into_prot_frame pf p _ pg, into_prot_frame pf p _ pg, into_prot_frame pf p _ pg,
    into_prot_frame pf p _ pg, into_prot_frame pf p _ pg, into_prot_frame pf p _ pg,
    into_prot_frame pf p _ pg, into_prot_frame pf p _ pg⟩

/-- Claim C5 (code bug): `Pages::set_prot` on unix panics when `mprotect` did
NOT return the failure sentinel `-1` and a stale `errno` is nonzero, and does
NOT panic when `mprotect` actually fails with `-1` — the protection-change
refusal is silently ignored, so the transition completes as a partial-success
state (relabelled type, unchanged OS protection).  The other two primitives are
handled as the claim says: an `mmap` refusal and a `munmap` failure are fatal. -/
theorem set_prot_ignores_failure_sentinel :
    (∀ e : Int, set_prot_panics (-1) e = false) ∧
    set_prot_panics 0 7 = true ∧
    drop_panics (-1) = true ∧
    new_native 4096 ⟨true, true, false⟩ none = none := by
  refine ⟨fun e => ?_, by decide, by decide, rfl⟩
  simp [set_prot_panics]

/-- Claim C2 (code bug): `PagedVec::pop` computes `last_index = self.len`
instead of `self.len - 1`, and `self[last_index]` is bounds-checked against the
`Deref` slice length `self.len`, so `pop` panics on EVERY state — including the
singleton vector, where the claim promises the last element back. -/
theorem pop_always_panics :
    (∀ (α : Type) (data : List α), pop data = none) ∧
    pop [(42 : Nat)] = none ∧
    pop ([] : List Nat) = none := by
  refine ⟨fun α data => ?_, by decide, by decide⟩
  have h : data[data.length]? = none := by
    rw [List.getElem?_eq_none (Nat.le_refl _)]
  simp [pop, h]

/-- Claim C9: for `i < length`, `remove` returns exactly the element at `i` and
the remaining elements shifted left with relative order preserved (the live
prefix becomes `eraseIdx i`, of length `N - 1`); for `i ≥ length` it halts
(panics) without mutating the buffer. -/
theorem remove_spec {α : Type} (data : List α) (i : Nat) (h : i < data.length) :
    ∃ x, data[i]? = some x ∧
      remove data i = some (x, data.eraseIdx i) ∧
      (data.eraseIdx i).length = data.length - 1 ∧
      (∀ j, j < i → (data.eraseIdx i)[j]? = data[j]?) ∧
      (∀ j, i ≤ j → (data.eraseIdx i)[j]? = data[j + 1]?) ∧
      (∀ k, data.length ≤ k → remove data k = none) := by
  refine ⟨data.get ⟨i, h⟩, ?_, ?_, ?_, ?_, ?_, ?_⟩
  · simp [List.getElem?_eq_getElem h]
  · rw [remove, List.getElem?_eq_getElem h, List.eraseIdx_eq_take_drop_succ]
    simp
  · simp [List.length_eraseIdx, h]
  · exact fun j hj => List.getElem?_eraseIdx_of_lt data i j hj
  · exact fun j hj => List.getElem?_eraseIdx_of_ge data i j hj
  · intro k hk
    rw [remove, List.getElem?_eq_none hk]

/-- Witness for C9 on `[10, 20, 30]` at index `1`. -/
theorem remove_spec_witness :
    ∃ x, ([10, 20, 30] : List Nat)[1]? = some x ∧
      remove ([10, 20, 30] : List Nat) 1 = some (x, ([10, 20, 30] : List Nat).eraseIdx 1) ∧
      (([10, 20, 30] : List Nat).eraseIdx 1).length = ([10, 20, 30] : List Nat).length - 1 ∧
      (∀ j, j < 1 → (([10, 20, 30] : List Nat).eraseIdx 1)[j]? = ([10, 20, 30] : List Nat)[j]?) ∧
      (∀ j, 1 ≤ j →
        (([10, 20, 30] : List Nat).eraseIdx 1)[j]? = ([10, 20, 30] : List Nat)[j + 1]?) ∧
      (∀ k, ([10, 20, 30] : List Nat).length ≤ k → remove ([10, 20, 30] : List Nat) k = none) :=
  remove_spec [10, 20, 30] 1 (by decide)

/-- Claim C1 (code bug): one successful `push_within_capacity` of `42` into a
fresh one-slot `PagedVec` followed by destruction performs TWO element
teardowns, not one: the place assignment `slice[self.len] = t` first drops the
slot's previous non-constructed contents — at slot index `0` while the logical
length is `0`, i.e. at (not below) the logical length — and `drop_all` then
tears down the live value. -/
theorem push_drops_nonconstructed_contents :
    LVec.new Nat 4096 1 = some ⟨4096, 4096, [Slot.uninit], 0, [], 0⟩ ∧
    LVec.push_within_capacity (⟨4096, 4096, [Slot.uninit], 0, [], 0⟩ : LVec Nat) 42 =
      (⟨4096, 4096, [Slot.live 42], 1, [(0, 0, Slot.uninit)], 1⟩, true) ∧
    LVec.drop_all (⟨4096, 4096, [Slot.live 42], 1, [(0, 0, Slot.uninit)], 1⟩ : LVec Nat) =
      ⟨4096, 4096, [Slot.uninit], 1, [(0, 0, Slot.uninit), (0, 1, Slot.live 42)], 1⟩ ∧
    ¬ ([(0, 0, Slot.uninit), (0, 1, Slot.live (42 : Nat))].length = 1) ∧
    [(0, 0, Slot.uninit), (0, 1, Slot.live (42 : Nat))].getD 0 (0, 0, Slot.uninit) =
      (0, 0, Slot.uninit) := by
  decide

/-- Claim C3 (code bug): with `size_of::<T>() = 3`, a `PagedVec` from `new(0)`
has a `4096`-byte region and capacity `1365`; after `1365` successful pushes
`len = capacity`, yet `push_within_capacity` succeeds once more because its
guard is `len * size_of::<T>() < region_len` (`4095 < 4096`), not
`len < capacity` — and the stored slot extends past the region's end. -/
theorem push_within_capacity_at_full_succeeds :
    PVec.new 3 0 = some ⟨4096, 0⟩ ∧
    PVec.iterPWC 3 1365 ⟨4096, 0⟩ = some ⟨4096, 1365⟩ ∧
    (⟨4096, 1365⟩ : PVec).len = PVec.capacity 3 ⟨4096, 1365⟩ ∧
    PVec.push_within_capacity 3 ⟨4096, 1365⟩ = some ⟨4096, 1366⟩ ∧
    4096 < 1366 * 3 := by
  decide

/-- Claim C4 (code bug): the state reached from `PagedVec::new(0)` with
`size_of::<T>() = 3` by `1366` successful `push_within_capacity` calls violates
the invariant `len * size_of::<T>() ≤ region_len` (`4098 > 4096`); the
capacity formula itself matches `region_len / size_of::<T>()`. -/
theorem length_times_size_invariant_fails :
    PVec.new 3 0 = some ⟨4096, 0⟩ ∧
    PVec.iterPWC 3 1366 ⟨4096, 0⟩ = some ⟨4096, 1366⟩ ∧
    ¬ ((⟨4096, 1366⟩ : PVec).len * 3 ≤ (⟨4096, 1366⟩ : PVec).regionLen) ∧
    PVec.capacity 3 ⟨4096, 1366⟩ = 4096 / 3 := by
  decide

/-- Claim C6 (code bug): with `size_of::<T>() = 8192`, `PagedVec::new(0)` yields
a full vector (`len = capacity = 0`), but `push` does not grow it: the
`push_within_capacity` guard (`0 * 8192 < 4096`) succeeds, so the value is
stored with no resize (writing past the region), the region length stays
`4096` and the capacity stays `0` instead of becoming
`get_next_cap(0) = 0x1000`. -/
theorem push_on_full_vec_does_not_grow :
    PVec.new 8192 0 = some ⟨4096, 0⟩ ∧
    (⟨4096, 0⟩ : PVec).len = PVec.capacity 8192 ⟨4096, 0⟩ ∧
    PVec.push 8192 ⟨4096, 0⟩ = some ⟨4096, 1⟩ ∧
    PVec.capacity 8192 ⟨4096, 1⟩ = 0 ∧
    PVec.get_next_cap (PVec.capacity 8192 ⟨4096, 0⟩) = 0x1000 := by
  decide

/-- Claim C10: for every element size `s ≥ 2` there is a capacity argument
(`2 ^ 63`) whose byte-size product wraps modulo `2 ^ 64`, so `PagedVec::new`
does not reject it and the resulting capacity is strictly smaller than the
request. -/
theorem new_capacity_wraps (s : Nat) (hs : 2 ≤ s) :
    USIZE_MOD ≤ 2 ^ 63 * s ∧
    ∃ v, PVec.new s (2 ^ 63) = some v ∧ PVec.capacity s v < 2 ^ 63 := by
  have h64 : USIZE_MOD = 18446744073709551616 := by norm_num [USIZE_MOD]
  have e63 : (2 : Nat) ^ 63 = 9223372036854775808 := by norm_num
  constructor
  · calc USIZE_MOD = 2 ^ 63 * 2 := by rw [h64]; norm_num
      _ ≤ 2 ^ 63 * s := Nat.mul_le_mul_left _ hs
  · have hmod : 2 ^ 63 * s % USIZE_MOD = 2 ^ 63 * (s % 2) := by
      rw [h64, e63]
      omega
    rcases Nat.mod_two_eq_zero_or_one s with h2 | h2
    · refine ⟨⟨4096, 0⟩, ?_, ?_⟩
      · unfold PVec.new
        rw [hmod, h2]
        rfl
      · calc PVec.capacity s ⟨4096, 0⟩ ≤ 4096 := Nat.div_le_self _ _
          _ < 2 ^ 63 := by norm_num
    · refine ⟨⟨2 ^ 63, 0⟩, ?_, ?_⟩
      · unfold PVec.new
        rw [hmod, h2]
        norm_num
        rfl
      · exact Nat.div_lt_self (by norm_num) (by omega)

/-- Witness for C10 at element size `2` (e.g. `T = u16`). -/
theorem new_capacity_wraps_witness :
    2 ≤ 2 ∧
    (USIZE_MOD ≤ 2 ^ 63 * 2 ∧
      ∃ v, PVec.new 2 (2 ^ 63) = some v ∧ PVec.capacity 2 v < 2 ^ 63) :=
  ⟨Nat.le_refl 2, new_capacity_wraps 2 (Nat.le_refl 2)⟩

end PagesCrate
